import Mathlib

/-!
Shallow embedding of the CI task orchestration engine of the coveo/stew
repository: the status taxonomy (`src/coveo_stew/ci/checks/lib/status.py`),
check results (`src/coveo_stew/ci/orchestration/results.py`), the check base
classes (`src/coveo_stew/ci/checks/lib/base_check.py` and
`base_check_cli.py`), tasks (`src/coveo_stew/ci/orchestration/task.py`), the
matrix (`src/coveo_stew/ci/orchestration/matrix.py`), the orchestrator
(`src/coveo_stew/ci/orchestration/orchestrator.py`) and the cancellation
handling of `src/coveo_stew/ci/stew_ci.py`.

Modelling conventions:
- Python exceptions are modelled with `Except Exn`; a function that can raise
  returns `Except Exn _` (and its state updates up to the raise point).
- Wall-clock reads (`time.time()`) are modelled by an explicit strictly
  increasing integer clock threaded through the orchestrator state; integer
  timestamps stand for the positive floats returned by `time.time()`.
- Python truthiness of optional floats (`if not self.started_at`) is modelled
  by `truthyTime`: `None` and `0.0` are falsy.
- Mutable Python objects referenced by several owners (the check objects
  shared between tasks and the orchestrator) are modelled by indices into the
  orchestrator's check list.
- Pure console output (`IO.write_line`, `TickerOutput`) and report files are
  side effects with no bearing on the embedded state and are omitted.
-/

deriving instance DecidableEq for Except

namespace Stew

/-- Embeds `CheckStatus` from `src/coveo_stew/ci/checks/lib/status.py`. -/
inductive CheckStatus where
  | NotRan
  | Success
  | CheckFailed
  | Error
  | Cancelled
deriving DecidableEq, Repr

/-- Embeds `CheckStatus.get_highest_severity`: return `NotRan` on an empty
list, otherwise the first of `Error, CheckFailed, Cancelled, Success` that is
a member of the list, falling through to `NotRan`. -/
def CheckStatus.get_highest_severity (statuses : List CheckStatus) : CheckStatus :=
  if statuses = [] then .NotRan
  else if CheckStatus.Error ∈ statuses then .Error
  else if CheckStatus.CheckFailed ∈ statuses then .CheckFailed
  else if CheckStatus.Cancelled ∈ statuses then .Cancelled
  else if CheckStatus.Success ∈ statuses then .Success
  else .NotRan

/-- Embeds the `DetailedCalledProcessError` exception data of the external
`coveo_systools.subprocess` module, as consumed by
`BaseCheckCLI._execute_check_function` and
`format_detailed_called_process_error_output`: a process failure carrying the
exit code, the command line and the decoded stdout/stderr (empty string for
no output, matching Python truthiness of the attribute). -/
structure DetailedCalledProcessError where
  returncode : Int
  command : String := ""
  stdout : String := ""
  stderr : String := ""
deriving DecidableEq, Repr

/-- Model of the Python exception values that flow through the embedded
code: `RuntimeError` (task state guards), `ValueError` (configuration
errors), `DetailedCalledProcessError` (process failures) and a catch-all for
arbitrary other exceptions raised by a check implementation. -/
inductive Exn where
  | runtimeError (msg : String)
  | valueError (msg : String)
  | calledProcessError (e : DetailedCalledProcessError)
  | other (msg : String)
deriving DecidableEq, Repr

/-- Embeds `CheckResults` from `src/coveo_stew/ci/orchestration/results.py`
(environments are opaque tokens, modelled by `Nat`). -/
structure CheckResults where
  name : String
  status : CheckStatus := .NotRan
  exit_code : Option Int := none
  output : List String := []
  exception : Option Exn := none
  environment : Option Nat := none
  duration_seconds : Option ℤ := none
deriving DecidableEq, Repr

/-- Embeds `format_detailed_called_process_error_output` from
`src/coveo_stew/ci/reporting/reporting.py` (String.trim stands for Python
`str.strip`). -/
def format_detailed_called_process_error_output
    (e : DetailedCalledProcessError) (is_error_or_verbose : Bool) : List String :=
  (if is_error_or_verbose then
    ["command: " ++ e.command, "exit code: " ++ toString e.returncode]
   else []) ++
  (if e.stdout ≠ "" then
    (if is_error_or_verbose then ["<fg=yellow>"] else []) ++
    [e.stdout.trim ++ (if is_error_or_verbose then "</>" else "")]
   else []) ++
  (if e.stderr ≠ "" then ["<fg=red>", e.stderr.trim ++ "</>"] else [])

/-- Replace the last element of a list in place; used to model Python's
in-place mutation of the most recently appended `CheckResults` object. -/
def updateLast (f : CheckResults → CheckResults) : List CheckResults → List CheckResults
  | [] => []
  | [r] => [f r]
  | r :: rs => r :: updateLast f rs

/-- Embeds the state of a `BaseCheck` object
(`src/coveo_stew/ci/checks/lib/base_check.py`) together with the data that
distinguishes the `BaseCheckCLI` subclass (`base_check_cli.py`): the class
attributes consumed by the orchestration core, the mutable `_results`
history, and the behaviour of the abstract `_do_check` / `_do_autofix`
methods, modelled as their outcome (a returned status, or a raised
exception). `cli` selects the `BaseCheckCLI._execute_check_function`
override; `io_is_verbose` models `self.io.is_verbose()`. -/
structure BaseCheck where
  name : String
  supports_auto_fix : Bool := false
  outputs_own_report : Bool := false
  cli : Bool := false
  check_failed_exit_codes : List Int := []
  io_is_verbose : Bool := false
  do_check : Except Exn CheckStatus := .ok .NotRan
  do_autofix : Except Exn CheckStatus := .ok .NotRan
  results : List CheckResults := []
deriving DecidableEq, Repr

instance : Inhabited BaseCheck := ⟨{ name := "" }⟩

/-- Embeds the `BaseCheck.result` property: the most recent result, raising
`ValueError` when no results are available. -/
def BaseCheck.result (c : BaseCheck) : Except Exn CheckResults :=
  match c.results.getLast? with
  | some r => .ok r
  | none => .error (.valueError "No results available")

/-- Embeds `_execute_check_function`: the plain `BaseCheck` version just
invokes the check function; the `BaseCheckCLI` override catches a
`DetailedCalledProcessError`, re-raises it when the exit code is not one of
`check_failed_exit_codes`, and otherwise appends the formatted process
output to the current result and returns `CheckFailed`. (The terminal-width
environment variable handling is console-only and not modelled.) -/
def BaseCheck.execute_check_function (c : BaseCheck) (fn : Except Exn CheckStatus) :
    BaseCheck × Except Exn CheckStatus :=
  if c.cli then
    match fn with
    | .ok s => (c, .ok s)
    | .error exn =>
      match exn with
      | .calledProcessError e =>
        if e.returncode ∉ c.check_failed_exit_codes then (c, .error exn)
        else
          match c.results.getLast? with
          | none => (c, .error (.valueError "No results available"))
          | some _ =>
            let lines := [""] ++ format_detailed_called_process_error_output e c.io_is_verbose
            ({ c with results := updateLast (fun r => { r with output := r.output ++ lines }) c.results },
             .ok .CheckFailed)
      | _ => (c, .error exn)
  else (c, fn)

/-- Embeds `BaseCheck.launch`: append a fresh `CheckResults` record to the
history, pick `_do_autofix` or `_do_check`, run it through
`_execute_check_function`, and either store the returned status on the
record and return it, or store the exception and `Error` status and
re-raise. (`_output_generic_report` only writes a report file and is not
modelled.) -/
def BaseCheck.launch (c : BaseCheck) (task_name : String) (environment : Option Nat)
    (auto_fix : Bool) : BaseCheck × Except Exn CheckResults :=
  let c1 : BaseCheck := { c with results := c.results ++ [{ name := task_name, environment := environment }] }
  let fn := if auto_fix && c.supports_auto_fix then c.do_autofix else c.do_check
  match c1.execute_check_function fn with
  | (c2, .ok s) =>
    let c3 : BaseCheck := { c2 with results := updateLast (fun r => { r with status := s }) c2.results }
    (c3, c3.result)
  | (c2, .error e) =>
    let c3 : BaseCheck :=
      { c2 with results := updateLast (fun r => { r with exception := some e, status := .Error }) c2.results }
    (c3, .error e)

/-- Python truthiness of the optional float timestamps of a `Task`:
`None` and `0.0` are falsy, every other number is truthy. -/
def truthyTime : Option ℤ → Bool
  | none => false
  | some q => q != 0

/-- Embeds `Task` from `src/coveo_stew/ci/orchestration/task.py`, generic in
the type of the referenced check (`α`) and environment (`ε`) exactly as the
Python object holds opaque references. -/
structure Task (α ε : Type) where
  check : α
  environment : ε
  enable_autofix : Bool
  purpose : String := "check"
  started_at : Option ℤ := none
  ended_at : Option ℤ := none
deriving DecidableEq, Repr

/-- Embeds the `Task.is_in_progress` property:
`bool(self.started_at and not self.ended_at)`. -/
def Task.is_in_progress (t : Task α ε) : Bool :=
  truthyTime t.started_at && !(truthyTime t.ended_at)

/-- Embeds the `Task.is_complete` property: `self.ended_at is not None`. -/
def Task.is_complete (t : Task α ε) : Bool :=
  t.ended_at.isSome

/-- Embeds the `Task.duration` property; `now` models the value a
`time.time()` call would return at that moment (only read when the task has
no truthy `ended_at`, matching the short-circuit of
`self.ended_at or time.time()`). -/
def Task.duration (t : Task α ε) (now : ℤ) : ℤ :=
  if !(truthyTime t.started_at) then 0
  else
    let end_time := if truthyTime t.ended_at then t.ended_at.getD 0 else now
    end_time - t.started_at.getD 0

/-- Embeds `Task.starts_now`; `now` is the `time.time()` value. -/
def Task.starts_now (t : Task α ε) (now : ℤ) : Except Exn (Task α ε) :=
  if t.is_in_progress || t.is_complete then .error (.runtimeError "Cannot restart Task.")
  else .ok { t with started_at := some now }

/-- Embeds `Task.ends_now`; `now` is the `time.time()` value (only read once
both guards pass). -/
def Task.ends_now (t : Task α ε) (now : ℤ) : Except Exn (Task α ε) :=
  if !t.is_in_progress then .error (.runtimeError "Cannot end Task that is not in progress.")
  else if t.is_complete then .error (.runtimeError "Task is already complete.")
  else .ok { t with ended_at := some now }

/-- Embeds the `CIMatrixWorkflowOptions` IntFlag of
`src/coveo_stew/ci/orchestration/matrix.py` as its underlying bitmask. -/
abbrev CIMatrixWorkflowOptions := Nat

/-- Flag value `NONE = 0`. -/
def CIMatrixWorkflowOptions.NONE : CIMatrixWorkflowOptions := 0

/-- Flag value `CHECK = 1 << 0`. -/
def CIMatrixWorkflowOptions.CHECK : CIMatrixWorkflowOptions := 1

/-- Flag value `AUTOFIX = 1 << 1`. -/
def CIMatrixWorkflowOptions.AUTOFIX : CIMatrixWorkflowOptions := 2

/-- Flag value `SEQUENTIAL = 1 << 2`. -/
def CIMatrixWorkflowOptions.SEQUENTIAL : CIMatrixWorkflowOptions := 4

/-- Embeds the `CIMatrix` dataclass fields. -/
structure CIMatrix (α ε : Type) where
  environments : List ε
  checks : List α

/-- Embeds `CIMatrix.__post_init__`: construction fails on an empty
environment or check sequence. -/
def CIMatrix.post_init (m : CIMatrix α ε) : Except Exn Unit :=
  if m.environments.isEmpty then .error (.valueError "At least one environment is required")
  else if m.checks.isEmpty then .error (.valueError "At least one check is required")
  else .ok ()

/-- Embeds `CIMatrix._create_autofix_tasks`: one autofix task per check whose
`supports_auto_fix` attribute is true (the attribute access is modelled by
the function argument), in the order the checks were supplied, all bound to
`environments[0]` (the `Inhabited` default is never reached on matrices that
passed `post_init`). -/
def CIMatrix.create_autofix_tasks [Inhabited ε] (m : CIMatrix α ε)
    (supports_auto_fix : α → Bool) : List (Task α ε) :=
  (m.checks.filter supports_auto_fix).map fun c =>
    { check := c, environment := m.environments.headD default,
      enable_autofix := true, purpose := "autofix" }

/-- Embeds `CIMatrix._create_check_tasks`: one task per
environment × check combination, environments outer, checks inner. -/
def CIMatrix.create_check_tasks (m : CIMatrix α ε) : List (Task α ε) :=
  m.environments.flatMap fun env =>
    m.checks.map fun c =>
      { check := c, environment := env, enable_autofix := false, purpose := "check" }

/-- Embeds `CIMatrix.generate_task_batches` (the result of iterating the
generator): raise `ValueError` when the options equal `NONE`; otherwise the
autofix singleton batches (when the AUTOFIX bit is set) followed by the one
check batch (when the CHECK bit is set). -/
def CIMatrix.generate_task_batches [Inhabited ε] (m : CIMatrix α ε)
    (supports_auto_fix : α → Bool) (workflow_options : CIMatrixWorkflowOptions) :
    Except Exn (List (List (Task α ε))) :=
  if workflow_options = CIMatrixWorkflowOptions.NONE then
    .error (.valueError "At least one workflow flag must be set")
  else
    .ok ((if workflow_options &&& CIMatrixWorkflowOptions.AUTOFIX ≠ 0 then
            (m.create_autofix_tasks supports_auto_fix).map (fun t => [t])
          else []) ++
         (if workflow_options &&& CIMatrixWorkflowOptions.CHECK ≠ 0 then
            [m.create_check_tasks]
          else []))

/-- Embeds the state of a `CIOrchestrator`
(`src/coveo_stew/ci/orchestration/orchestrator.py`). Check objects are
shared mutable Python objects; they live in `checks` and tasks reference
them by index. `clock` models the wall clock: each `time.time()` call
returns `clock + 1` and advances it, so timestamps are strictly increasing
positive rationals. -/
structure CIOrchestrator where
  environments : List Nat
  checks : List BaseCheck
  raise_exceptions : Bool := false
  results : List CheckResults := []
  in_progress : List (Task Nat Nat) := []
  completed : List (Task Nat Nat) := []
  clock : ℤ := 0
deriving DecidableEq, Repr

/-- Embeds `CIOrchestrator.__post_init__` (the check guard; constructing the
matrix re-validates environments and checks through `CIMatrix.post_init`). -/
def CIOrchestrator.post_init (s : CIOrchestrator) : Except Exn Unit :=
  if s.checks.isEmpty then .error (.valueError "At least one check must be provided.")
  else CIMatrix.post_init ⟨s.environments, List.range s.checks.length⟩

/-- The matrix the orchestrator builds over its environments and checks;
check references are indices into `s.checks`. -/
def CIOrchestrator.matrix (s : CIOrchestrator) : CIMatrix Nat Nat :=
  ⟨s.environments, List.range s.checks.length⟩

/-- Attribute access `check.supports_auto_fix` through a check reference. -/
def CIOrchestrator.check_supports_auto_fix (s : CIOrchestrator) : Nat → Bool :=
  fun i => (s.checks.getD i default).supports_auto_fix

/-- One `time.time()` call: advance the clock and return the new value. -/
def CIOrchestrator.tick (s : CIOrchestrator) : CIOrchestrator × ℤ :=
  ({ s with clock := s.clock + 1 }, s.clock + 1)

/-- The task name computed inline in `_run_task_without_output` (identical
to the `Task.name` property). -/
def task_display_name (check_name purpose : String) : String :=
  if purpose ≠ "check" then check_name ++ " (" ++ purpose ++ ")" else check_name

/-- Embeds `CIOrchestrator._run_task_without_output`, including the Python
`try/except/else/finally` flow: append to `in_progress`, start the task,
launch the check; on success set the result's duration (aliasing the record
stored in the check history) and append it to `results`; on an exception end
the task, synthesize an `Error` result, append it, and re-raise when
`raise_exceptions` is set; the `finally` block then calls `task.ends_now()`
unconditionally, and an exception raised there replaces any pending
exception or normal return, per Python semantics. -/
def CIOrchestrator.run_task_without_output (s : CIOrchestrator) (task : Task Nat Nat) :
    CIOrchestrator × Except Exn (Task Nat Nat × CheckResults) :=
  let s := { s with in_progress := s.in_progress ++ [task] }
  let check := s.checks.getD task.check default
  let task_name := task_display_name check.name task.purpose
  let (s, t0) := s.tick
  match task.starts_now t0 with
  | .error e => (s, .error e)
  | .ok task =>
    match check.launch task_name (some task.environment) task.enable_autofix with
    | (check', .ok result) =>
      let s := { s with checks := s.checks.set task.check check' }
      let (s, tDur) := s.tick
      let d := task.duration tDur
      let result := { result with duration_seconds := some d }
      let s := { s with checks := (s.checks.set task.check
                  { check' with results := updateLast (fun r => { r with duration_seconds := some d }) check'.results }) }
      let s := { s with results := s.results ++ [result] }
      let (s, t1) := s.tick
      match task.ends_now t1 with
      | .error e => (s, .error e)
      | .ok task => (s, .ok (task, result))
    | (check', .error ex) =>
      let s := { s with checks := s.checks.set task.check check' }
      let (s, t1) := s.tick
      match task.ends_now t1 with
      | .error e => (s, .error e)
      | .ok task =>
        let result : CheckResults :=
          { name := task_name, status := .Error, exception := some ex,
            duration_seconds := some (task.duration t1) }
        let s := { s with results := s.results ++ [result] }
        let (s, t2) := s.tick
        match task.ends_now t2 with
        | .error e2 => (s, .error e2)
        | .ok task' =>
          if s.raise_exceptions then (s, .error ex) else (s, .ok (task', result))

/-- Embeds `CIOrchestrator._mark_task_completed`. Python removes the very
object from `in_progress`; object identity is modelled by the task's
immutable fields (check reference, environment, autofix flag, purpose),
which are unique per run. -/
def CIOrchestrator.mark_task_completed (s : CIOrchestrator) (task : Task Nat Nat) :
    CIOrchestrator :=
  { s with completed := s.completed ++ [task],
           in_progress := s.in_progress.eraseP fun t =>
             decide (t.check = task.check) && decide (t.environment = task.environment) &&
             decide (t.enable_autofix = task.enable_autofix) && decide (t.purpose = task.purpose) }

/-- One completion-handling step of `CIOrchestrator._run_tasks_in_parallel`:
a task whose coroutine returned normally is marked completed; a task whose
coroutine raised is skipped (its exception is only logged by the
`except Exception` handler around `completed.result()`). -/
def CIOrchestrator.parallel_step (s : CIOrchestrator) (task : Task Nat Nat) : CIOrchestrator :=
  match s.run_task_without_output task with
  | (s', .ok (task', _result)) => s'.mark_task_completed task'
  | (s', .error _) => s'

/-- Embeds `CIOrchestrator._run_tasks_in_parallel` for an uninterrupted
batch. The real code awaits the coroutines concurrently and handles
completions in whatever order they finish; concurrent execution only
permutes that order, so the model processes them in batch order. -/
def CIOrchestrator.run_tasks_in_parallel (s : CIOrchestrator) (batch : List (Task Nat Nat)) :
    CIOrchestrator :=
  batch.foldl CIOrchestrator.parallel_step s

/-- Embeds `CIOrchestrator._run_tasks_in_parallel` for a batch interrupted
by `KeyboardInterrupt` after the first `k` tasks completed: the remaining
coroutines are cancelled and the interrupt propagates to the caller. -/
def CIOrchestrator.run_tasks_in_parallel_interrupted (s : CIOrchestrator)
    (batch : List (Task Nat Nat)) (k : Nat) : CIOrchestrator :=
  (batch.take k).foldl CIOrchestrator.parallel_step s

/-- Embeds `CIOrchestrator._run_tasks_sequentially`: tasks run one at a time
and an exception raised by a task's coroutine propagates. -/
def CIOrchestrator.run_tasks_sequentially (s : CIOrchestrator) :
    List (Task Nat Nat) → CIOrchestrator × Except Exn Unit
  | [] => (s, .ok ())
  | task :: rest =>
    match s.run_task_without_output task with
    | (s', .ok (task', _result)) => (s'.mark_task_completed task').run_tasks_sequentially rest
    | (s', .error e) => (s', .error e)

/-- Embeds the `CIOrchestrator.overall_status` property: the highest
severity among `task.check.result.status` over completed tasks (the
`result` property raises when a check has no results; this cannot happen for
a completed task). -/
def CIOrchestrator.overall_status (s : CIOrchestrator) : Except Exn CheckStatus := do
  let statuses ← s.completed.mapM fun t =>
    ((s.checks.getD t.check default).result).map (fun r => r.status)
  return CheckStatus.get_highest_severity statuses

/-- Folds the batches for the sequential branch of `orchestrate`,
propagating exceptions. -/
def CIOrchestrator.run_batches_sequentially (s : CIOrchestrator) :
    List (List (Task Nat Nat)) → CIOrchestrator × Except Exn Unit
  | [] => (s, .ok ())
  | batch :: rest =>
    match s.run_tasks_sequentially batch with
    | (s', .ok ()) => s'.run_batches_sequentially rest
    | (s', .error e) => (s', .error e)

/-- Embeds `CIOrchestrator.orchestrate`: early `NotRan` return on an empty
check list, the `ValueError` from iterating the matrix generator, then the
batch loop in sequential or parallel mode, returning `overall_status`. -/
def CIOrchestrator.orchestrate (s : CIOrchestrator)
    (workflow_options : CIMatrixWorkflowOptions) : CIOrchestrator × Except Exn CheckStatus :=
  if s.checks.isEmpty then (s, .ok .NotRan)
  else
    match s.matrix.generate_task_batches s.check_supports_auto_fix workflow_options with
    | .error e => (s, .error e)
    | .ok batches =>
      if workflow_options &&& CIMatrixWorkflowOptions.SEQUENTIAL ≠ 0 then
        match s.run_batches_sequentially batches with
        | (s', .ok ()) => (s', s'.overall_status)
        | (s', .error e) => (s', .error e)
      else
        let s' := batches.foldl CIOrchestrator.run_tasks_in_parallel s
        (s', s'.overall_status)

/-- Embeds the `KeyboardInterrupt` handler of `stew_ci`
(`src/coveo_stew/ci/stew_ci.py`): after an interrupted run, append one
synthesized `Cancelled` result for every filtered check whose name does not
appear among the names of the results collected so far. -/
def stew_ci_interrupt_results (orch_results : List CheckResults)
    (filtered_checks : List BaseCheck) : List CheckResults :=
  let ran_check_names := orch_results.map (fun r => r.name)
  orch_results ++
    (filtered_checks.filter (fun c => c.name ∉ ran_check_names)).map fun c =>
      { name := c.name, status := .Cancelled, exception := none, duration_seconds := some 0 }

/-! Concrete check objects and orchestrator states used to evaluate the
embedded code on specific scenarios. -/

/-- A check whose `_do_check` implementation raises an arbitrary uncaught
exception when launched. -/
def crashingCheck : BaseCheck :=
  { name := "boom", do_check := .error (.other "crash") }

/-- A check whose `_do_check` implementation completes with `Success`. -/
def goodCheck : BaseCheck :=
  { name := "good", do_check := .ok .Success }

/-- An orchestrator over the single crashing check, one environment, default
`raise_exceptions = False`. -/
def crashOrchestrator : CIOrchestrator :=
  { environments := [0], checks := [crashingCheck] }

/-- The fresh check-purpose task the matrix would create for
`crashOrchestrator`. -/
def freshCrashTask : Task Nat Nat :=
  { check := 0, environment := 0, enable_autofix := false }

/-- An orchestrator over one crashing check and one succeeding check, one
environment, default `raise_exceptions = False`. -/
def mixedOrchestrator : CIOrchestrator :=
  { environments := [0], checks := [crashingCheck, goodCheck] }

/-- A `black`-style check (supports autofix, succeeds). -/
def blackCheck : BaseCheck :=
  { name := "black", supports_auto_fix := true, do_check := .ok .Success }

/-- A `mypy`-style check (no autofix, succeeds). -/
def mypyCheck : BaseCheck :=
  { name := "mypy", do_check := .ok .Success }

/-- An orchestrator over two checks and two environments, used for the
cancellation scenario. -/
def cancelOrchestrator : CIOrchestrator :=
  { environments := [0, 1], checks := [blackCheck, mypyCheck] }

/-- The check batch of `cancelOrchestrator` (four planned check tasks). -/
def cancelBatch : List (Task Nat Nat) :=
  cancelOrchestrator.matrix.create_check_tasks

/-- A process failure whose exit code 1 is whitelisted by `cliLintFailed`. -/
def epeExit1 : DetailedCalledProcessError :=
  { returncode := 1, command := "lint .", stdout := "1 issue found", stderr := "" }

/-- A process failure with exit code 2, not whitelisted. -/
def epeExit2 : DetailedCalledProcessError :=
  { returncode := 2, command := "lint .", stdout := "", stderr := "internal error" }

/-- A CLI check whose process exits with whitelisted exit code 1. -/
def cliLintFailed : BaseCheck :=
  { name := "lint", cli := true, check_failed_exit_codes := [1],
    do_check := .error (.calledProcessError epeExit1) }

/-- A CLI check whose process exits with non-whitelisted exit code 2. -/
def cliLintError : BaseCheck :=
  { name := "lint", cli := true, check_failed_exit_codes := [1],
    do_check := .error (.calledProcessError epeExit2) }

/-- An orchestrator over an arbitrary check list and a single environment,
as built by `stew_ci` for a project with one virtual environment. -/
def single_env_orchestrator (env : Nat) (cs : List BaseCheck) : CIOrchestrator :=
  { environments := [env], checks := cs }

end Stew

namespace Stew

/-! Helper lemmas about the embedded operations. -/

/-- `updateLast` on a list with an appended element rewrites just that
element. -/
theorem updateLast_append (f : CheckResults → CheckResults) (l : List CheckResults)
    (x : CheckResults) : updateLast f (l ++ [x]) = l ++ [f x] := by
  induction l with
  | nil => rfl
  | cons r rs ih =>
    cases rs with
    | nil => simp [updateLast]
    | cons r' rs' => simpa [updateLast] using ih

/-- `updateLast` with the identity is the identity. -/
theorem updateLast_id (l : List CheckResults) : updateLast (fun r => r) l = l := by
  induction l with
  | nil => rfl
  | cons r rs ih =>
    cases rs with
    | nil => rfl
    | cons r' rs' => simpa [updateLast] using ih

/-- Shape of `_execute_check_function`: the check's name is unchanged and
the result history is rewritten only at its last record, by a function that
preserves every field except `output`. -/
theorem execute_check_function_shape (c : BaseCheck) (fn : Except Exn CheckStatus) :
    ∃ g : CheckResults → CheckResults,
      (∀ r, (g r).name = r.name ∧ (g r).status = r.status ∧ (g r).exception = r.exception ∧
        (g r).environment = r.environment ∧ (g r).duration_seconds = r.duration_seconds) ∧
      (c.execute_check_function fn).1.name = c.name ∧
      (c.execute_check_function fn).1.results = updateLast g c.results ∧
      (c.execute_check_function fn).1.supports_auto_fix = c.supports_auto_fix := by
  by_cases hcli : c.cli
  · cases fn with
    | ok s => exact ⟨fun r => r, by simp, by simp [BaseCheck.execute_check_function, hcli, updateLast_id]⟩
    | error exn =>
      cases exn with
      | calledProcessError e =>
        by_cases hmem : e.returncode ∈ c.check_failed_exit_codes
        · rcases hlast : c.results.getLast? with - | r
          · exact ⟨fun r => r, by simp,
              by simp [BaseCheck.execute_check_function, hcli, hmem, hlast, updateLast_id]⟩
          · refine ⟨fun r => { r with output := r.output ++
                ([""] ++ format_detailed_called_process_error_output e c.io_is_verbose) },
              by simp, ?_⟩
            simp [BaseCheck.execute_check_function, hcli, hmem, hlast]
        · exact ⟨fun r => r, by simp,
            by simp [BaseCheck.execute_check_function, hcli, hmem, updateLast_id]⟩
      | runtimeError m => exact ⟨fun r => r, by simp,
          by simp [BaseCheck.execute_check_function, hcli, updateLast_id]⟩
      | valueError m => exact ⟨fun r => r, by simp,
          by simp [BaseCheck.execute_check_function, hcli, updateLast_id]⟩
      | other m => exact ⟨fun r => r, by simp,
          by simp [BaseCheck.execute_check_function, hcli, updateLast_id]⟩
  · exact ⟨fun r => r, by simp, by simp [BaseCheck.execute_check_function, hcli, updateLast_id]⟩

/-- Shape of `BaseCheck.launch`: the check keeps its name, exactly one
record is appended to the result history, that record carries the task name
and environment, the `result` accessor returns it afterwards, and the launch
outcome either returns the record or raises the exception stored on it with
status `Error`. -/
theorem launch_shape (c : BaseCheck) (tn : String) (env : Option Nat) (af : Bool) :
    (c.launch tn env af).1.name = c.name ∧
    ∃ r, (c.launch tn env af).1.results = c.results ++ [r] ∧
      r.name = tn ∧ r.environment = env ∧
      (c.launch tn env af).1.result = Except.ok r ∧
      ((c.launch tn env af).2 = .ok r ∨
        ∃ e, (c.launch tn env af).2 = .error e ∧ r.status = .Error ∧ r.exception = some e) := by
  have h := execute_check_function_shape
    { c with results := c.results ++ [{ name := tn, environment := env }] }
    (if af && c.supports_auto_fix then c.do_autofix else c.do_check)
  obtain ⟨g, hg, hname, hres, -⟩ := h
  rw [updateLast_append] at hres
  simp only [BaseCheck.launch]
  rcases hexec : BaseCheck.execute_check_function
      { c with results := c.results ++ [{ name := tn, environment := env }] }
      (if af && c.supports_auto_fix then c.do_autofix else c.do_check) with ⟨c2, out⟩
  rw [hexec] at hname hres
  simp only at hname hres
  cases out with
  | ok s =>
    refine ⟨by simpa using hname, { g { name := tn, environment := env } with status := s }, ?_, ?_, ?_, ?_, ?_⟩
    · simp [hres, updateLast_append]
    · simpa using (hg { name := tn, environment := env }).1
    · simpa using (hg { name := tn, environment := env }).2.2.2.1
    · simp [BaseCheck.result, hres, updateLast_append, List.getLast?_concat]
    · left; simp [BaseCheck.result, hres, updateLast_append, List.getLast?_concat]
  | error e =>
    refine ⟨by simpa using hname,
      { g { name := tn, environment := env } with exception := some e, status := .Error },
      ?_, ?_, ?_, ?_, ?_⟩
    · simp [hres, updateLast_append]
    · simpa using (hg { name := tn, environment := env }).1
    · simpa using (hg { name := tn, environment := env }).2.2.2.1
    · simp [BaseCheck.result, hres, updateLast_append, List.getLast?_concat]
    · right; exact ⟨e, by simp, rfl, rfl⟩

/-- C10: every call to `BaseCheck.launch` appends exactly one `CheckResults`
record to the check's result history, the `result` accessor returns that
record afterwards, and when the underlying check function raises, the record
carries status `Error` and the exception before the exception propagates to
the caller. -/
theorem C10_launch_records_result (c : BaseCheck) (tn : String) (env : Option Nat)
    (af : Bool) :
    ∃ r, (c.launch tn env af).1.results = c.results ++ [r] ∧
      (c.launch tn env af).1.result = Except.ok r ∧
      ∀ e, (c.launch tn env af).2 = .error e → r.status = .Error ∧ r.exception = some e := by
  obtain ⟨-, r, h1, -, -, h2, h3⟩ := launch_shape c tn env af
  refine ⟨r, h1, h2, fun e he => ?_⟩
  rcases h3 with h | ⟨e', he', hs, hx⟩
  · rw [he] at h; exact absurd h (by simp)
  · rw [he] at he'
    obtain rfl : e = e' := by injection he'
    exact ⟨hs, hx⟩

/-- Witness for C10 at a concrete check: launching `goodCheck` appends one
record that its `result` accessor then returns. -/
theorem C10_launch_records_result_witness :
    ∃ r, (goodCheck.launch "good" none false).1.results = goodCheck.results ++ [r] ∧
      (goodCheck.launch "good" none false).1.result = Except.ok r ∧
      ∀ e, (goodCheck.launch "good" none false).2 = .error e →
        r.status = .Error ∧ r.exception = some e :=
  C10_launch_records_result goodCheck "good" none false

/-- C9: for a CLI check, a check process exiting with an exit code contained
in `check_failed_exit_codes` produces a result with status `CheckFailed`
holding the formatted process output, while a process failure with any other
exit code propagates out of the CLI wrapper and `launch` records a result
with status `Error` and the exception attached. -/
theorem C9_cli_exit_code_classification (c : BaseCheck) (e : DetailedCalledProcessError)
    (tn : String) (env : Option Nat)
    (hcli : c.cli = true)
    (hdo : c.do_check = .error (.calledProcessError e)) :
    (e.returncode ∈ c.check_failed_exit_codes →
      ∃ r, (c.launch tn env false).2 = .ok r ∧ r.status = .CheckFailed ∧
        r.output = [""] ++ format_detailed_called_process_error_output e c.io_is_verbose ∧
        (c.launch tn env false).1.results = c.results ++ [r]) ∧
    (e.returncode ∉ c.check_failed_exit_codes →
      (c.launch tn env false).2 = .error (.calledProcessError e) ∧
      ∃ r, (c.launch tn env false).1.results = c.results ++ [r] ∧
        r.status = .Error ∧ r.exception = some (.calledProcessError e)) := by
  constructor
  · intro hmem
    refine ⟨{ name := tn, environment := env, status := .CheckFailed,
              output := [""] ++ format_detailed_called_process_error_output e c.io_is_verbose },
            ?_, rfl, rfl, ?_⟩ <;>
      simp [BaseCheck.launch, BaseCheck.execute_check_function, hcli, hdo, hmem,
        updateLast_append, List.getLast?_concat, BaseCheck.result]
  · intro hmem
    refine ⟨?_, { name := tn, environment := env, status := .Error,
                  exception := some (.calledProcessError e) }, ?_, rfl, rfl⟩ <;>
      simp [BaseCheck.launch, BaseCheck.execute_check_function, hcli, hdo, hmem,
        updateLast_append, List.getLast?_concat, BaseCheck.result]

/-- Witness for C9 at concrete CLI checks: `cliLintFailed` (whitelisted exit
code 1) classifies as `CheckFailed` with the process output captured;
`cliLintError` (exit code 2, not whitelisted) propagates the exception and
records `Error`. -/
theorem C9_cli_exit_code_classification_witness :
    (∃ r, (cliLintFailed.launch "lint" none false).2 = .ok r ∧
      r.status = .CheckFailed ∧
      r.output = [""] ++ format_detailed_called_process_error_output epeExit1
        cliLintFailed.io_is_verbose ∧
      (cliLintFailed.launch "lint" none false).1.results = cliLintFailed.results ++ [r]) ∧
    ((cliLintError.launch "lint" none false).2 = .error (.calledProcessError epeExit2) ∧
      ∃ r, (cliLintError.launch "lint" none false).1.results = cliLintError.results ++ [r] ∧
        r.status = .Error ∧ r.exception = some (.calledProcessError epeExit2)) :=
  ⟨(C9_cli_exit_code_classification cliLintFailed epeExit1 "lint" none rfl rfl).1 (by decide),
   (C9_cli_exit_code_classification cliLintError epeExit2 "lint" none rfl rfl).2 (by decide)⟩

/-- C3 (counterexample): a non-empty status list containing neither `Error`
nor `CheckFailed` nor `Cancelled` — here `[NotRan]` — yields `NotRan`, not
`Success` as the claim's final "otherwise" case states. -/
theorem C3_counterexample_all_notran :
    CheckStatus.get_highest_severity [.NotRan] = .NotRan ∧
    CheckStatus.get_highest_severity [.NotRan] ≠ .Success := by decide

/-- C3 (amended): `get_highest_severity` returns `Error` when an `Error` is
present; `CheckFailed` when no `Error` but a `CheckFailed` is present;
`Cancelled` when neither but a `Cancelled` is present; `Success` when none
of those but a `Success` is present; and `NotRan` for the empty list as well
as for a non-empty list containing none of the four (that is, only `NotRan`
entries). -/
theorem C3_highest_severity_cases (statuses : List CheckStatus) :
    (statuses = [] → CheckStatus.get_highest_severity statuses = .NotRan) ∧
    (CheckStatus.Error ∈ statuses →
      CheckStatus.get_highest_severity statuses = .Error) ∧
    (CheckStatus.Error ∉ statuses → CheckStatus.CheckFailed ∈ statuses →
      CheckStatus.get_highest_severity statuses = .CheckFailed) ∧
    (CheckStatus.Error ∉ statuses → CheckStatus.CheckFailed ∉ statuses →
      CheckStatus.Cancelled ∈ statuses →
      CheckStatus.get_highest_severity statuses = .Cancelled) ∧
    (CheckStatus.Error ∉ statuses → CheckStatus.CheckFailed ∉ statuses →
      CheckStatus.Cancelled ∉ statuses → CheckStatus.Success ∈ statuses →
      CheckStatus.get_highest_severity statuses = .Success) ∧
    (CheckStatus.Error ∉ statuses → CheckStatus.CheckFailed ∉ statuses →
      CheckStatus.Cancelled ∉ statuses → CheckStatus.Success ∉ statuses →
      CheckStatus.get_highest_severity statuses = .NotRan) := by
  refine ⟨fun h => ?_, fun h => ?_, fun h1 h => ?_, fun h1 h2 h => ?_,
    fun h1 h2 h3 h => ?_, fun h1 h2 h3 h4 => ?_⟩
  · simp [CheckStatus.get_highest_severity, h]
  · have hne := List.ne_nil_of_mem h
    simp [CheckStatus.get_highest_severity, h, hne]
  · have hne := List.ne_nil_of_mem h
    simp [CheckStatus.get_highest_severity, h, h1, hne]
  · have hne := List.ne_nil_of_mem h
    simp [CheckStatus.get_highest_severity, h, h1, h2, hne]
  · have hne := List.ne_nil_of_mem h
    simp [CheckStatus.get_highest_severity, h, h1, h2, h3, hne]
  · by_cases hne : statuses = [] <;>
      simp [CheckStatus.get_highest_severity, h1, h2, h3, h4, hne]

/-- Witness for C3 at concrete lists: the severity cases evaluated on
`[CheckFailed, Success]` and on `[Success, Cancelled]`. -/
theorem C3_highest_severity_cases_witness :
    CheckStatus.get_highest_severity [.CheckFailed, .Success] = .CheckFailed ∧
    CheckStatus.get_highest_severity [.Success, .Cancelled] = .Cancelled :=
  ⟨(C3_highest_severity_cases [.CheckFailed, .Success]).2.2.1 (by decide) (by decide),
   (C3_highest_severity_cases [.Success, .Cancelled]).2.2.2.1 (by decide) (by decide) (by decide)⟩

/-- C4 (counterexample): `SEQUENTIAL` alone has neither the CHECK bit nor
the AUTOFIX bit set, yet `generate_task_batches` does not raise `ValueError`
for it — the code only raises on options exactly equal to `NONE`; for
`SEQUENTIAL` the generator simply yields no batches. -/
theorem C4_counterexample_sequential_only :
    CIMatrixWorkflowOptions.SEQUENTIAL &&& CIMatrixWorkflowOptions.CHECK = 0 ∧
    CIMatrixWorkflowOptions.SEQUENTIAL &&& CIMatrixWorkflowOptions.AUTOFIX = 0 ∧
    CIMatrixWorkflowOptions.SEQUENTIAL ≠ CIMatrixWorkflowOptions.NONE ∧
    CIMatrix.generate_task_batches (α := Nat) (ε := Nat) ⟨[0], [0]⟩ (fun _ => false)
      CIMatrixWorkflowOptions.SEQUENTIAL = .ok [] := by decide

/-- C4 (amended): `generate_task_batches` raises `ValueError` exactly when
the workflow options equal `NONE`; for any other options with neither CHECK
nor AUTOFIX set (that is, `SEQUENTIAL` alone) it raises nothing and yields
no batches at all. -/
theorem C4_error_only_on_none {α ε : Type} [Inhabited ε] (m : CIMatrix α ε)
    (supports_auto_fix : α → Bool) :
    m.generate_task_batches supports_auto_fix CIMatrixWorkflowOptions.NONE
      = .error (.valueError "At least one workflow flag must be set") ∧
    m.generate_task_batches supports_auto_fix CIMatrixWorkflowOptions.SEQUENTIAL
      = .ok [] := by
  have h1 : (4 : Nat) &&& 1 = 0 := by decide
  have h2 : (4 : Nat) &&& 2 = 0 := by decide
  constructor <;>
    simp [CIMatrix.generate_task_batches, CIMatrixWorkflowOptions.NONE,
      CIMatrixWorkflowOptions.SEQUENTIAL, CIMatrixWorkflowOptions.CHECK,
      CIMatrixWorkflowOptions.AUTOFIX, h1, h2]

/-- C8: `starts_now` raises when the task is already in progress or already
complete; `ends_now` raises when the task is not in progress or already
complete; and `duration` is `0.0` before start, the elapsed time since
`started_at` while in progress, and `ended_at - started_at` once complete
(the nonzero hypotheses on the stored timestamps reflect that `time.time()`
values are positive). -/
theorem C8_task_state_machine {α ε : Type} (t : Task α ε) (now s e : ℤ) :
    ((t.is_in_progress || t.is_complete) = true →
      t.starts_now now = .error (.runtimeError "Cannot restart Task.")) ∧
    ((t.is_in_progress = false ∨ t.is_complete = true) →
      ∃ msg, t.ends_now now = .error (.runtimeError msg)) ∧
    (t.started_at = none → t.duration now = 0) ∧
    (t.is_in_progress = true → t.started_at = some s → t.duration now = now - s) ∧
    (t.started_at = some s → s ≠ 0 → t.ended_at = some e → e ≠ 0 →
      t.duration now = e - s) := by
  refine ⟨fun h => ?_, fun h => ?_, fun h => ?_, fun h h' => ?_, fun h1 h2 h3 h4 => ?_⟩
  · simp only [Task.starts_now, h, if_true]
  · by_cases hp : t.is_in_progress
    · rcases h with h | h
      · simp [hp] at h
      · exact ⟨"Task is already complete.", by simp [Task.ends_now, hp, h]⟩
    · exact ⟨"Cannot end Task that is not in progress.", by simp [Task.ends_now, hp]⟩
  · simp [Task.duration, truthyTime, h]
  · have hs : truthyTime t.started_at = true := by
      simp only [Task.is_in_progress, Bool.and_eq_true] at h
      exact h.1
    have he : truthyTime t.ended_at = false := by
      simp only [Task.is_in_progress, Bool.and_eq_true, Bool.not_eq_true'] at h
      exact h.2
    rw [h'] at hs
    simp [Task.duration, h', hs, he]
  · have hs : truthyTime (some s) = true := by simp [truthyTime, bne, h2]
    have he : truthyTime (some e) = true := by simp [truthyTime, bne, h4]
    simp [Task.duration, h1, h3, hs, he]

/-- Witness for C8 at concrete tasks and timestamps: restarting a started
task raises, ending a fresh task raises, and the three duration cases
evaluate as stated. -/
theorem C8_task_state_machine_witness :
    (Task.starts_now ({ check := 0, environment := 0, enable_autofix := false, started_at := some 1 } : Task Nat Nat) 5
      = .error (.runtimeError "Cannot restart Task.")) ∧
    (∃ msg, Task.ends_now ({ check := 0, environment := 0, enable_autofix := false } : Task Nat Nat) 5
      = .error (.runtimeError msg)) ∧
    (Task.duration ({ check := 0, environment := 0, enable_autofix := false } : Task Nat Nat) 5 = 0) ∧
    (Task.duration ({ check := 0, environment := 0, enable_autofix := false, started_at := some 1 } : Task Nat Nat) 5 = 5 - 1) ∧
    (Task.duration ({ check := 0, environment := 0, enable_autofix := false, started_at := some 1, ended_at := some 3 } : Task Nat Nat) 5 = 3 - 1) :=
  ⟨(C8_task_state_machine _ 5 0 0).1 (by decide),
   (C8_task_state_machine _ 5 0 0).2.1 (Or.inl (by decide)),
   (C8_task_state_machine _ 5 0 0).2.2.1 rfl,
   (C8_task_state_machine _ 5 1 0).2.2.2.1 (by decide) rfl,
   (C8_task_state_machine _ 5 1 3).2.2.2.2 rfl (by norm_num) rfl (by norm_num)⟩

/-- C1: evaluation of `_run_task_without_output` on a task whose check's
launch raises, with `raise_exceptions = False`. The orchestrator does
synthesize and append the `Error` result with the exception and the task's
duration, and the task's `ended_at` is set — but the call does not return
normally: the `except` branch already called `task.ends_now()`, so the
unconditional `task.ends_now()` in the `finally` block raises
`RuntimeError("Cannot end Task that is not in progress.")`, which replaces
the swallowed check exception and propagates to the caller. -/
theorem C1_exception_path_raises_runtime_error :
    crashOrchestrator.raise_exceptions = false ∧
    (crashOrchestrator.run_task_without_output freshCrashTask).2
      = .error (.runtimeError "Cannot end Task that is not in progress.") ∧
    (crashOrchestrator.run_task_without_output freshCrashTask).1.results
      = [{ name := "boom", status := .Error, exception := some (.other "crash"),
           duration_seconds := some 1 }] := by decide

/-- C2: evaluation of `orchestrate` (parallel, `raise_exceptions = False`)
on one crashing check plus one succeeding check: the crashing task's
coroutine ends with the `RuntimeError` raised by the double `ends_now()` in
the `finally` block, so the parallel runner's `except Exception` handler
skips it and it is never added to `_completed`; `overall_status` therefore
only sees the `Success` of the other task and `orchestrate` returns
`Success`, not `Error`, even though the synthesized `Error` result is
present in the results list. -/
theorem C2_crashed_check_yields_overall_success :
    (mixedOrchestrator.orchestrate CIMatrixWorkflowOptions.CHECK).2
      = .ok .Success ∧
    (mixedOrchestrator.orchestrate CIMatrixWorkflowOptions.CHECK).1.results.map
        (fun r => (r.name, r.status)) = [("boom", .Error), ("good", .Success)] ∧
    (mixedOrchestrator.orchestrate CIMatrixWorkflowOptions.CHECK).1.completed.map
        (fun t => t.check) = [1] ∧
    CheckStatus.Success ≠ CheckStatus.Error := by decide

/-- C6: when the AUTOFIX flag is set, `generate_task_batches` yields —
before the check batch, when CHECK is also set — exactly one singleton batch
per check whose `supports_auto_fix` is true, in the order the checks were
supplied, each containing one task with `enable_autofix = true`, purpose
`"autofix"` and the first supplied environment, regardless of how many
environments were supplied. -/
theorem C6_autofix_batches {α ε : Type} [Inhabited ε] (e0 : ε) (envs : List ε)
    (checks : List α) (supports_auto_fix : α → Bool) (w : CIMatrixWorkflowOptions)
    (hw : w ≠ CIMatrixWorkflowOptions.NONE)
    (hA : w &&& CIMatrixWorkflowOptions.AUTOFIX ≠ 0) :
    CIMatrix.generate_task_batches ⟨e0 :: envs, checks⟩ supports_auto_fix w
      = .ok (((checks.filter supports_auto_fix).map fun c =>
            [{ check := c, environment := e0, enable_autofix := true, purpose := "autofix", started_at := none, ended_at := none }]) ++
          (if w &&& CIMatrixWorkflowOptions.CHECK ≠ 0 then
            [CIMatrix.create_check_tasks ⟨e0 :: envs, checks⟩]
          else [])) := by
  unfold CIMatrix.generate_task_batches CIMatrix.create_autofix_tasks
  rw [if_neg hw, if_pos hA, List.map_map]
  rfl

/-- Witness for C6 at a concrete matrix: two environments, two checks of
which one supports autofix, workflow CHECK and AUTOFIX. -/
theorem C6_autofix_batches_witness :
    CIMatrix.generate_task_batches (α := Bool) (ε := Nat) ⟨8 :: [9], [true, false]⟩ (fun b => b) 3
      = .ok ((([true, false].filter fun b => b).map fun c =>
            [{ check := c, environment := 8, enable_autofix := true, purpose := "autofix", started_at := none, ended_at := none }]) ++
          (if 3 &&& CIMatrixWorkflowOptions.CHECK ≠ 0 then
            [CIMatrix.create_check_tasks ⟨8 :: [9], [true, false]⟩]
          else [])) :=
  C6_autofix_batches 8 [9] [true, false] (fun b => b) 3 (by decide) (by decide)

/-- The check batch, mapped to its (environment, check) pairs, is exactly
the product of the environment and check sequences. -/
theorem create_check_tasks_map_pair {α ε : Type} (m : CIMatrix α ε) :
    m.create_check_tasks.map (fun t => (t.environment, t.check))
      = m.environments ×ˢ m.checks := by
  show m.create_check_tasks.map (fun t => (t.environment, t.check))
      = m.environments.product m.checks
  unfold CIMatrix.create_check_tasks List.product
  rw [List.map_flatMap]
  simp only [List.map_map]
  rfl

/-- C7: when the CHECK flag is set, `generate_task_batches` yields exactly
one check batch (after the autofix singletons, when any), containing
`len(checks) * len(environments)` tasks in which every
(check, environment) pair appears exactly once (stated over
duplicate-free check and environment sequences), each task having
`enable_autofix = false` and purpose `"check"`. -/
theorem C7_check_batch {α ε : Type} [DecidableEq α] [DecidableEq ε] [Inhabited ε]
    (m : CIMatrix α ε) (supports_auto_fix : α → Bool) (w : CIMatrixWorkflowOptions)
    (hw : w ≠ CIMatrixWorkflowOptions.NONE)
    (hC : w &&& CIMatrixWorkflowOptions.CHECK ≠ 0)
    (hcn : m.checks.Nodup) (hen : m.environments.Nodup) :
    m.generate_task_batches supports_auto_fix w
      = .ok ((if w &&& CIMatrixWorkflowOptions.AUTOFIX ≠ 0 then
              (m.create_autofix_tasks supports_auto_fix).map (fun t => [t])
            else [])
            ++ [m.create_check_tasks]) ∧
    m.create_check_tasks.length = m.checks.length * m.environments.length ∧
    (∀ t ∈ m.create_check_tasks, t.enable_autofix = false ∧ t.purpose = "check") ∧
    (∀ c ∈ m.checks, ∀ e ∈ m.environments,
      (m.create_check_tasks.map fun t => (t.environment, t.check)).countP
        (fun p => decide (p = (e, c))) = 1) := by
  refine ⟨?_, ?_, ?_, ?_⟩
  · simp [CIMatrix.generate_task_batches, hw, hC]
  · have h := congrArg List.length (create_check_tasks_map_pair m)
    simp only [List.length_map, List.length_product] at h
    rw [h, Nat.mul_comm]
  · intro t ht
    simp only [CIMatrix.create_check_tasks, List.mem_flatMap, List.mem_map] at ht
    obtain ⟨e, -, c, -, rfl⟩ := ht
    exact ⟨rfl, rfl⟩
  · intro c hc e he
    rw [create_check_tasks_map_pair]
    exact List.count_eq_one_of_mem (hen.product hcn) (List.mem_product.mpr ⟨he, hc⟩)

/-- Witness for C7 at a concrete matrix: two environments and two distinct
checks, workflow CHECK only. -/
theorem C7_check_batch_witness :
    CIMatrix.generate_task_batches (α := Nat) (ε := Nat) ⟨[1, 2], [10, 20]⟩ (fun _ => false) 1
      = .ok ((if 1 &&& CIMatrixWorkflowOptions.AUTOFIX ≠ 0 then
              (CIMatrix.create_autofix_tasks ⟨[1, 2], [10, 20]⟩ (fun _ => false)).map (fun t => [t])
            else [])
            ++ [CIMatrix.create_check_tasks ⟨[1, 2], [10, 20]⟩]) ∧
    (CIMatrix.create_check_tasks (α := Nat) (ε := Nat) ⟨[1, 2], [10, 20]⟩).length = 2 * 2 ∧
    (∀ t ∈ CIMatrix.create_check_tasks (α := Nat) (ε := Nat) ⟨[1, 2], [10, 20]⟩,
      t.enable_autofix = false ∧ t.purpose = "check") ∧
    (∀ c ∈ [10, 20], ∀ e ∈ [1, 2],
      ((CIMatrix.create_check_tasks (α := Nat) (ε := Nat) ⟨[1, 2], [10, 20]⟩).map
        fun t => (t.environment, t.check)).countP (fun p => decide (p = (e, c))) = 1) :=
  C7_check_batch ⟨[1, 2], [10, 20]⟩ (fun _ => false) 1 (by decide) (by decide)
    (by decide) (by decide)

/-- C5 (counterexample): a run of 4 planned tasks (2 checks × 2
environments) interrupted after the first 2 tasks (black and mypy, each in
the first environment) completed. The `KeyboardInterrupt` handler of
`stew_ci` synthesizes `Cancelled` entries per check *name*, not per planned
task: both check names already appear among the collected results, so the
final list has only 2 entries — not 4 — and contains no `Cancelled` entry at
all for the 2 tasks that never ran. -/
theorem C5_counterexample_multi_env :
    cancelBatch.length = 4 ∧
    (cancelOrchestrator.run_tasks_in_parallel_interrupted cancelBatch 2).completed.length = 2 ∧
    (stew_ci_interrupt_results
        (cancelOrchestrator.run_tasks_in_parallel_interrupted cancelBatch 2).results
        cancelOrchestrator.checks).map (fun r => (r.name, r.status))
      = [("black", .Success), ("mypy", .Success)] ∧
    (stew_ci_interrupt_results
        (cancelOrchestrator.run_tasks_in_parallel_interrupted cancelBatch 2).results
        cancelOrchestrator.checks).length ≠ 4 ∧
    (stew_ci_interrupt_results
        (cancelOrchestrator.run_tasks_in_parallel_interrupted cancelBatch 2).results
        cancelOrchestrator.checks).countP (fun r => decide (r.status = .Cancelled)) = 0 := by
  decide

/-- Transfer of `getD`-names along an equality of name maps. -/
theorem name_getD_of_map_name_eq (l l' : List BaseCheck)
    (h : l.map (fun c => c.name) = l'.map (fun c => c.name)) (i : Nat) :
    (l.getD i default).name = (l'.getD i default).name := by
  have h1 : (l.map (fun c => c.name))[i]? = (l'.map (fun c => c.name))[i]? := by rw [h]
  simp only [List.getElem?_map] at h1
  simp only [List.getD_eq_getElem?_getD]
  cases hx : l[i]? with
  | none =>
    cases hy : l'[i]? with
    | none => rfl
    | some b => rw [hx, hy] at h1; simp at h1
  | some a =>
    cases hy : l'[i]? with
    | none => rw [hx, hy] at h1; simp at h1
    | some b =>
      rw [hx, hy] at h1
      simpa using h1

/-- Setting a check whose name matches the one already stored leaves the
name map unchanged. -/
theorem set_name_map (l : List BaseCheck) (i : Nat) (x : BaseCheck)
    (hx : x.name = (l.getD i default).name) :
    (l.set i x).map (fun c => c.name) = l.map (fun c => c.name) := by
  by_cases hi : i < l.length
  · apply List.ext_getElem?
    intro n
    simp only [List.getElem?_map]
    by_cases h : i = n
    · subst h
      rw [List.getElem?_set_self hi, List.getElem?_eq_getElem hi]
      have hxn : x.name = l[i].name := by
        rw [hx, List.getD_eq_getElem?_getD, List.getElem?_eq_getElem hi]
        rfl
      simp [hxn]
    · rw [List.getElem?_set_ne h]
  · rw [List.set_eq_of_length_le (Nat.le_of_not_lt hi)]

/-- Setting the name slot of the name map to the name it already holds is
the identity. -/
theorem map_name_set_getD (l : List BaseCheck) (i : Nat) :
    (l.map (fun c => c.name)).set i ((l.getD i default).name) = l.map (fun c => c.name) := by
  have h := set_name_map l i (l.getD i default) rfl
  rw [List.map_set] at h
  exact h

/-- Effect of one parallel completion step on a fresh check-purpose task
(with a nonnegative clock, as maintained by the orchestrator): exactly one
result is appended, named after the referenced check, the check-name map is
preserved, and the clock stays nonnegative. This holds whether the launch
returns or raises. -/
theorem parallel_step_spec (s : CIOrchestrator) (i env : Nat) (h0 : 0 ≤ s.clock) :
    ∃ r : CheckResults,
      (s.parallel_step ⟨i, env, false, "check", none, none⟩).results = s.results ++ [r] ∧
      r.name = (s.checks.getD i default).name ∧
      (s.parallel_step ⟨i, env, false, "check", none, none⟩).checks.map (fun c => c.name)
        = s.checks.map (fun c => c.name) ∧
      0 ≤ (s.parallel_step ⟨i, env, false, "check", none, none⟩).clock := by
  have h1 : ((s.clock + 1 : ℤ) != 0) = true := by
    simpa using (by omega : (s.clock + 1 : ℤ) ≠ 0)
  have h2 : ((s.clock + 1 + 1 : ℤ) != 0) = true := by
    simpa using (by omega : (s.clock + 1 + 1 : ℤ) ≠ 0)
  have hstart : Task.starts_now
      ({ check := i, environment := env, enable_autofix := false, purpose := "check", started_at := none, ended_at := none } : Task Nat Nat)
      (s.clock + 1)
      = .ok { check := i, environment := env, enable_autofix := false, purpose := "check", started_at := some (s.clock + 1), ended_at := none } := rfl
  have hname_eq : task_display_name (s.checks.getD i default).name "check"
      = (s.checks.getD i default).name := rfl
  have hend1 : ∀ tv : ℤ, Task.ends_now
      ({ check := i, environment := env, enable_autofix := false, purpose := "check", started_at := some (s.clock + 1), ended_at := none } : Task Nat Nat) tv
      = .ok { check := i, environment := env, enable_autofix := false, purpose := "check", started_at := some (s.clock + 1), ended_at := some tv } := by
    intro tv
    simp [Task.ends_now, Task.is_in_progress, Task.is_complete, truthyTime, h1]
  have hend2 : ∀ tv tv2 : ℤ, ((tv != 0) = true) → Task.ends_now
      ({ check := i, environment := env, enable_autofix := false, purpose := "check", started_at := some (s.clock + 1), ended_at := some tv } : Task Nat Nat) tv2
      = .error (.runtimeError "Cannot end Task that is not in progress.") := by
    intro tv tv2 htv
    simp [Task.ends_now, Task.is_in_progress, Task.is_complete, truthyTime, htv]
  obtain ⟨hnm, r0, hres0, hrname, hrenv, hacc, hout⟩ :=
    launch_shape (s.checks.getD i default) (s.checks.getD i default).name (some env) false
  rcases hL : (s.checks.getD i default).launch (s.checks.getD i default).name (some env) false
    with ⟨c', out⟩
  rw [hL] at hnm hres0 hout
  simp only at hnm hres0 hout
  cases out with
  | ok rOk =>
    have hr0 : rOk = r0 := by
      rcases hout with h | ⟨e, he, -, -⟩
      · exact Except.ok.inj h
      · exact absurd he (by simp)
    subst hr0
    refine ⟨{ rOk with duration_seconds := some (Task.duration ({ check := i, environment := env, enable_autofix := false, purpose := "check", started_at := some (s.clock + 1), ended_at := none } : Task Nat Nat) (s.clock + 1 + 1)) }, ?_, ?_, ?_, ?_⟩ <;>
      simp only [CIOrchestrator.parallel_step, CIOrchestrator.run_task_without_output,
        CIOrchestrator.tick, hname_eq, hstart, hL, hend1, CIOrchestrator.mark_task_completed,
        List.set_set]
    · exact hrname
    · rw [hnm]
      exact set_name_map s.checks i _ rfl
    · omega
  | error ex =>
    refine ⟨{ name := (s.checks.getD i default).name, status := .Error, exception := some ex, duration_seconds := some (Task.duration ({ check := i, environment := env, enable_autofix := false, purpose := "check", started_at := some (s.clock + 1), ended_at := some (s.clock + 1 + 1) } : Task Nat Nat) (s.clock + 1 + 1)) }, ?_, ?_, ?_, ?_⟩ <;>
      simp only [CIOrchestrator.parallel_step, CIOrchestrator.run_task_without_output,
        CIOrchestrator.tick, hname_eq, hstart, hL, hend1, hend2 _ _ h2,
        CIOrchestrator.mark_task_completed]
    · exact set_name_map s.checks i c' hnm
    · omega

/-- Folding parallel completion steps over fresh check tasks built from a
list of check indices: the results gain exactly one entry per index, named
after the indexed check, the check-name map is preserved, and the clock
stays nonnegative. -/
theorem fold_parallel_step_spec (idx : List Nat) (env : Nat) (s : CIOrchestrator)
    (h0 : 0 ≤ s.clock) :
    ((idx.map fun i => (⟨i, env, false, "check", none, none⟩ : Task Nat Nat)).foldl
        CIOrchestrator.parallel_step s).results.map (fun r => r.name)
      = s.results.map (fun r => r.name) ++ idx.map (fun i => (s.checks.getD i default).name) ∧
    ((idx.map fun i => (⟨i, env, false, "check", none, none⟩ : Task Nat Nat)).foldl
        CIOrchestrator.parallel_step s).checks.map (fun c => c.name)
      = s.checks.map (fun c => c.name) ∧
    0 ≤ ((idx.map fun i => (⟨i, env, false, "check", none, none⟩ : Task Nat Nat)).foldl
        CIOrchestrator.parallel_step s).clock := by
  induction idx generalizing s with
  | nil => exact ⟨by simp, rfl, h0⟩
  | cons i rest ih =>
    obtain ⟨r, hres, hname, hchk, hclk⟩ := parallel_step_spec s i env h0
    obtain ⟨ih1, ih2, ih3⟩ := ih (s.parallel_step ⟨i, env, false, "check", none, none⟩) hclk
    simp only [List.map_cons, List.foldl_cons]
    refine ⟨?_, ?_, ih3⟩
    · rw [ih1, hres, List.map_append]
      have hrest : rest.map
            (fun j => ((s.parallel_step ⟨i, env, false, "check", none, none⟩).checks.getD j default).name)
          = rest.map (fun j => (s.checks.getD j default).name) :=
        List.map_congr_left fun j _ => name_getD_of_map_name_eq _ _ hchk j
      rw [hrest]
      simp [hname, List.append_assoc]
    · exact ih2.trans hchk

/-- Names drawn by index from a list equal the names of its prefix. -/
theorem range_map_getD_name (l : List BaseCheck) (k : Nat) (hk : k ≤ l.length) :
    (List.range k).map (fun i => (l.getD i default).name)
      = (l.take k).map (fun c => c.name) := by
  apply List.ext_getElem
  · simpa using hk
  · intro j h1 h2
    simp only [List.getElem_map, List.getElem_range, List.getElem_take]
    have hj : j < l.length := by
      simp at h2
      omega
    rw [List.getD_eq_getElem?_getD, List.getElem?_eq_getElem hj]
    rfl

/-- Over duplicate-free names, filtering out the checks whose name occurs in
the first `k` names leaves exactly the checks after position `k`. -/
theorem filter_name_not_mem_take (cs : List BaseCheck) (k : Nat)
    (hn : (cs.map (fun c => c.name)).Nodup) :
    cs.filter (fun c => decide (c.name ∉ (cs.take k).map (fun c => c.name)))
      = cs.drop k := by
  have hnd : ((cs.take k).map (fun c => c.name) ++ (cs.drop k).map (fun c => c.name)).Nodup := by
    rw [← List.map_append, List.take_append_drop]
    exact hn
  have hdisj := (List.nodup_append.mp hnd).2.2
  have hTake : (cs.take k).filter
      (fun c => decide (c.name ∉ (cs.take k).map (fun c => c.name))) = [] := by
    rw [List.filter_eq_nil_iff]
    intro c hc
    simp only [decide_eq_true_eq, Decidable.not_not]
    exact List.mem_map_of_mem _ hc
  have hDrop : (cs.drop k).filter
      (fun c => decide (c.name ∉ (cs.take k).map (fun c => c.name))) = cs.drop k := by
    rw [List.filter_eq_self]
    intro c hc
    simp only [decide_eq_true_eq]
    exact fun hmem => hdisj hmem (List.mem_map_of_mem _ hc)
  calc cs.filter (fun c => decide (c.name ∉ (cs.take k).map (fun c => c.name)))
      = (cs.take k ++ cs.drop k).filter
          (fun c => decide (c.name ∉ (cs.take k).map (fun c => c.name))) := by
        rw [List.take_append_drop]
    _ = cs.drop k := by rw [List.filter_append, hTake, hDrop, List.nil_append]

/-- C5 (amended): the `KeyboardInterrupt` handler synthesizes one
`Cancelled` entry per *check* whose name is absent from the collected
results, not one per planned task. For a single-environment run over checks
with distinct names (where planned tasks and checks coincide), a run of N
planned tasks interrupted after the first K completed yields a final results
list of exactly N entries: the K entries of the tasks that ran, in order,
followed by one synthesized `Cancelled` entry for each of the N-K checks
that never ran, so every originally-planned check appears exactly once. -/
theorem C5_single_env_cancellation (cs : List BaseCheck) (env : Nat) (k : Nat)
    (hn : (cs.map (fun c => c.name)).Nodup) (hk : k ≤ cs.length) :
    ((single_env_orchestrator env cs).matrix.create_check_tasks).length = cs.length ∧
    ((single_env_orchestrator env cs).run_tasks_in_parallel_interrupted
        (single_env_orchestrator env cs).matrix.create_check_tasks k).results.map (fun r => r.name)
      = (cs.take k).map (fun c => c.name) ∧
    stew_ci_interrupt_results
        ((single_env_orchestrator env cs).run_tasks_in_parallel_interrupted
          (single_env_orchestrator env cs).matrix.create_check_tasks k).results cs
      = ((single_env_orchestrator env cs).run_tasks_in_parallel_interrupted
          (single_env_orchestrator env cs).matrix.create_check_tasks k).results
        ++ (cs.drop k).map (fun c => { name := c.name, status := .Cancelled, exception := none, duration_seconds := some 0 }) ∧
    (stew_ci_interrupt_results
        ((single_env_orchestrator env cs).run_tasks_in_parallel_interrupted
          (single_env_orchestrator env cs).matrix.create_check_tasks k).results cs).length
      = cs.length := by
  have hbatch : (single_env_orchestrator env cs).matrix.create_check_tasks
      = (List.range cs.length).map
          (fun i => (⟨i, env, false, "check", none, none⟩ : Task Nat Nat)) := by
    simp [single_env_orchestrator, CIOrchestrator.matrix, CIMatrix.create_check_tasks]
  have htake : ((single_env_orchestrator env cs).matrix.create_check_tasks).take k
      = (List.range k).map (fun i => (⟨i, env, false, "check", none, none⟩ : Task Nat Nat)) := by
    rw [hbatch, ← List.map_take, List.take_range, Nat.min_eq_left hk]
  have hrun : (single_env_orchestrator env cs).run_tasks_in_parallel_interrupted
        (single_env_orchestrator env cs).matrix.create_check_tasks k
      = ((List.range k).map (fun i => (⟨i, env, false, "check", none, none⟩ : Task Nat Nat))).foldl
          CIOrchestrator.parallel_step (single_env_orchestrator env cs) := by
    rw [CIOrchestrator.run_tasks_in_parallel_interrupted, htake]
  obtain ⟨h1, -, -⟩ := fold_parallel_step_spec (List.range k) env
    (single_env_orchestrator env cs) (by simp [single_env_orchestrator])
  have e1 : (single_env_orchestrator env cs).results = [] := rfl
  have e2 : (single_env_orchestrator env cs).checks = cs := rfl
  have hnames : ((single_env_orchestrator env cs).run_tasks_in_parallel_interrupted
        (single_env_orchestrator env cs).matrix.create_check_tasks k).results.map (fun r => r.name)
      = (cs.take k).map (fun c => c.name) := by
    rw [hrun, h1]
    simp only [e1, e2, List.map_nil, List.nil_append]
    exact range_map_getD_name cs k hk
  have hsynth : stew_ci_interrupt_results
        ((single_env_orchestrator env cs).run_tasks_in_parallel_interrupted
          (single_env_orchestrator env cs).matrix.create_check_tasks k).results cs
      = ((single_env_orchestrator env cs).run_tasks_in_parallel_interrupted
          (single_env_orchestrator env cs).matrix.create_check_tasks k).results
        ++ (cs.drop k).map (fun c => { name := c.name, status := .Cancelled, exception := none, duration_seconds := some 0 }) := by
    rw [stew_ci_interrupt_results, hnames, filter_name_not_mem_take cs k hn]
  have hlen : ((single_env_orchestrator env cs).run_tasks_in_parallel_interrupted
        (single_env_orchestrator env cs).matrix.create_check_tasks k).results.length = k := by
    have := congrArg List.length hnames
    simpa [Nat.min_eq_left hk] using this
  refine ⟨?_, hnames, hsynth, ?_⟩
  · rw [hbatch]
    simp
  · rw [hsynth]
    simp only [List.length_append, List.length_map, List.length_drop, hlen]
    omega

/-- Witness for C5 (amended) at a concrete run: checks black and mypy with
one environment, interrupted after the first task completed. -/
theorem C5_single_env_cancellation_witness :
    ((single_env_orchestrator 7 [blackCheck, mypyCheck]).matrix.create_check_tasks).length
      = ([blackCheck, mypyCheck] : List BaseCheck).length ∧
    ((single_env_orchestrator 7 [blackCheck, mypyCheck]).run_tasks_in_parallel_interrupted
        (single_env_orchestrator 7 [blackCheck, mypyCheck]).matrix.create_check_tasks 1).results.map (fun r => r.name)
      = (([blackCheck, mypyCheck] : List BaseCheck).take 1).map (fun c => c.name) ∧
    stew_ci_interrupt_results
        ((single_env_orchestrator 7 [blackCheck, mypyCheck]).run_tasks_in_parallel_interrupted
          (single_env_orchestrator 7 [blackCheck, mypyCheck]).matrix.create_check_tasks 1).results
        [blackCheck, mypyCheck]
      = ((single_env_orchestrator 7 [blackCheck, mypyCheck]).run_tasks_in_parallel_interrupted
          (single_env_orchestrator 7 [blackCheck, mypyCheck]).matrix.create_check_tasks 1).results
        ++ (([blackCheck, mypyCheck] : List BaseCheck).drop 1).map
            (fun c => { name := c.name, status := .Cancelled, exception := none, duration_seconds := some 0 }) ∧
    (stew_ci_interrupt_results
        ((single_env_orchestrator 7 [blackCheck, mypyCheck]).run_tasks_in_parallel_interrupted
          (single_env_orchestrator 7 [blackCheck, mypyCheck]).matrix.create_check_tasks 1).results
        [blackCheck, mypyCheck]).length
      = ([blackCheck, mypyCheck] : List BaseCheck).length :=
  C5_single_env_cancellation [blackCheck, mypyCheck] 7 1 (by decide) (by decide)

end Stew
